import Mathlib

/-!
# Verification of the opencode-graphiti memory plugin

A shallow embedding of the plugin's transport clients, result normalizer,
temporal filter and context composer, translated from the TypeScript source
(`src/services/graphiti-client.ts`, `src/services/graphiti-rest-client.ts`,
`src/services/context.ts`, `src/index.ts`), together with theorems settling
the specification's claims about them.

Modelling conventions:
* JavaScript `string | undefined | null` fields become `Option String`;
  JS truthiness of such a field (`if (x)` / `x || y`) is `jsTruthyStr` /
  `jsOrStr`, under which both absence and the empty string are falsy.
* Timestamps handled only through `Date` arithmetic are modelled as epoch
  milliseconds (`Int`); timestamp strings that the code merely copies are
  kept as strings.
* JS numbers are modelled as exact rationals; the quantities involved
  (similarity scores, day counts) are small, so float rounding is not
  load-bearing.
* Network effects are made explicit: each operation takes the backend's
  (decoded) responses as arguments, and the values the code reads from the
  ambient environment (the clock) become explicit parameters.
-/

/-- JS truthiness of an optional string: `undefined`, `null` and `""` are
all falsy; a non-empty string is truthy. -/
def jsTruthyStr : Option String → Bool
  | none => false
  | some s => !(s == "")

/-- JS `a || b` for an optional string `a` with a string default `b`. -/
def jsOrStr (a : Option String) (b : String) : String :=
  match a with
  | some s => if s == "" then b else s
  | none => b

/-- Whether the second list starts with the first (pattern) list. -/
def leadsWith : List Char → List Char → Bool
  | [], _ => true
  | _ :: _, [] => false
  | p :: ps, c :: cs => p == c && leadsWith ps cs

/-- Whether the pattern occurs as a contiguous sublist. -/
def hasSub (pat : List Char) : List Char → Bool
  | [] => leadsWith pat []
  | c :: cs => leadsWith pat (c :: cs) || hasSub pat cs

/-- JS `s.includes(pat)`. -/
def strIncludes (s pat : String) : Bool := hasSub pat.data s.data

/-- JS `s.startsWith(pat)`. -/
def strStarts (s pat : String) : Bool := leadsWith pat.data s.data

/-- ASCII whitespace, as trimmed by JS `String.prototype.trim` (restricted
to the ASCII range; the source never feeds it exotic Unicode spaces). -/
def isJsWs (c : Char) : Bool :=
  c == ' ' || c == '\t' || c == '\n' || c == '\r' || c == '\x0b' || c == '\x0c'

/-- JS `s.trim()` over ASCII whitespace. -/
def strTrim (s : String) : String :=
  String.mk (((s.data.dropWhile isJsWs).reverse.dropWhile isJsWs).reverse)

/-! ## Context composer (`src/services/context.ts`)

The composer reads the unified memory items produced by `searchMemories`.
Its config switches (`CONFIG.injectProfile`, `CONFIG.injectProjectMemories`,
`CONFIG.injectRelevantMemories`, `CONFIG.maxProfileItems`) are ambient in the
source and explicit here. -/

/-- The portion of `CONFIG` (`src/config.ts`) the context composer reads. -/
structure Config where
  injectProfile : Bool
  injectProjectMemories : Bool
  injectRelevantMemories : Bool
  maxProfileItems : Nat
deriving DecidableEq

/-- The `type` discriminator of a unified memory result
(`"node" | "fact" | "episode"`, `src/types/index.ts`). -/
inductive MemKind where
  | node
  | fact
  | episode
deriving DecidableEq

/-- The string the TS union literal renders as. -/
def MemKind.render : MemKind → String
  | .node => "node"
  | .fact => "fact"
  | .episode => "episode"

/-- A unified memory result as consumed by the composer (`MemoryResult`
plus the `validAt` field the search results actually carry). `validAt` is
epoch milliseconds. -/
structure MemoryResult where
  id : String
  memory : Option String := none
  similarity : Option ℚ := none
  type : Option MemKind := none
  labels : Option (List String) := none
  validAt : Option Int := none
deriving DecidableEq

/-- `UserProfile` (`src/types/index.ts`). -/
structure UserProfile where
  static : List String
  dynamic : List String
deriving DecidableEq

/-- `ProfileResponse` (`src/services/context.ts`): the profile field is
optional. -/
structure ProfileResponse where
  profile : Option UserProfile := none
deriving DecidableEq

/-- `MemoriesResponseMinimal` (`src/services/context.ts`). -/
structure MemoriesResponseMinimal where
  results : Option (List MemoryResult) := none
deriving DecidableEq

/-- One day in milliseconds (`1000 * 60 * 60 * 24`). -/
def msPerDay : Int := 86400000

/-- `formatTemporalTag` (`src/services/context.ts:12`): buckets
`now − validAt` (in whole days, `Math.floor` = `Int.fdiv`) into a recency
tag; no tag when `validAt` is absent. `now` is the wall clock the source
reads via `new Date()`. -/
def formatTemporalTag (now : Int) (mem : MemoryResult) : String :=
  match mem.validAt with
  | some validAt =>
    let daysDiff : Int := (now - validAt).fdiv msPerDay
    if daysDiff ≤ 1 then "[recent]"
    else if daysDiff ≤ 7 then "[this week]"
    else if daysDiff ≤ 30 then "[this month]"
    else "[" ++ toString daysDiff ++ "d ago]"
  | none => ""

/-- `formatMemoryLine` (`src/services/context.ts:25`): the per-memory line.
The source collects the four tags in an array, drops the falsy (empty)
ones and joins with `""`. -/
def formatMemoryLine (now : Int) (mem : MemoryResult) : String :=
  let content := mem.memory.getD ""
  let typeTag := match mem.type with
    | some t => "[" ++ t.render ++ "]"
    | none => ""
  let temporalTag := formatTemporalTag now mem
  let labelTag := match mem.labels with
    | some ls => if ls.length > 0 then "[" ++ String.intercalate "," ls ++ "]" else ""
    | none => ""
  let similarityTag := match mem.similarity with
    | some s => "[" ++ toString (round (s * 100)) ++ "%]"
    | none => ""
  let tags := ([typeTag, labelTag, temporalTag, similarityTag].filter
    (fun t => !(t == ""))).foldl (fun a b => a ++ b) ""
  "- " ++ tags ++ " " ++ content

/-- `formatContextForPrompt` (`src/services/context.ts:39`): builds the
`parts` array (header first), appends profile, project-memory and
user-memory blocks, and returns `""` when nothing beyond the header was
pushed, else the parts joined by newlines. -/
def formatContextForPrompt (cfg : Config) (now : Int)
    (profile : Option ProfileResponse)
    (userMemories projectMemories : MemoriesResponseMinimal) : String :=
  let header := "[GRAPHITI MEMORY - Temporal Knowledge Graph]"
  let profileParts : List String :=
    match profile with
    | some resp =>
      match resp.profile with
      | some up =>
        if cfg.injectProfile then
          (if up.static.length > 0 then
            "\nUser Preferences (stable):" ::
              (up.static.take cfg.maxProfileItems).map (fun f => "- " ++ f)
          else []) ++
          (if up.dynamic.length > 0 then
            "\nRecent Context (dynamic):" ::
              (up.dynamic.take cfg.maxProfileItems).map (fun f => "- " ++ f)
          else [])
        else []
      | none => []
    | none => []
  let projectResults := projectMemories.results.getD []
  let projectParts : List String :=
    if cfg.injectProjectMemories && projectResults.length > 0 then
      "\nProject Knowledge (entities & facts):" ::
        projectResults.map (formatMemoryLine now)
    else []
  let userResults := userMemories.results.getD []
  let userParts : List String :=
    if cfg.injectRelevantMemories && userResults.length > 0 then
      "\nRelevant Memories:" :: userResults.map (formatMemoryLine now)
    else []
  let parts := header :: (profileParts ++ projectParts ++ userParts)
  if parts.length == 1 then "" else String.intercalate "\n" parts

/-! ## A JSON validity checker

`GraphitiClient.inferSource` only observes whether `JSON.parse` succeeds.
We embed an RFC 8259 recognizer over character lists (fuel-based recursive
descent); `jsonParses s` models `JSON.parse(s)` succeeding. -/

/-- JSON insignificant whitespace. -/
def isJsonWs (c : Char) : Bool :=
  c == ' ' || c == '\t' || c == '\n' || c == '\r'

/-- Drop leading JSON whitespace. -/
def skipJsonWs : List Char → List Char
  | c :: cs => if isJsonWs c then skipJsonWs cs else c :: cs
  | [] => []

/-- Hex digit (for `\u` escapes). -/
def isHexChar (c : Char) : Bool :=
  c.isDigit || ('a' ≤ c && c ≤ 'f') || ('A' ≤ c && c ≤ 'F')

/-- One or more decimal digits; returns the rest. -/
def jDigits : List Char → Option (List Char)
  | c :: cs => if c.isDigit then some (cs.dropWhile Char.isDigit) else none
  | [] => none

/-- JSON `int` part: `0`, or a nonzero digit followed by digits. -/
def jIntPart : List Char → Option (List Char)
  | '0' :: cs => some cs
  | c :: cs => if c.isDigit then some (cs.dropWhile Char.isDigit) else none
  | [] => none

/-- Optional JSON `frac` part. -/
def jFracPart : List Char → Option (List Char)
  | '.' :: cs => jDigits cs
  | l => some l

/-- Optional JSON `exp` part. -/
def jExpPart : List Char → Option (List Char)
  | c :: cs =>
    if c == 'e' || c == 'E' then
      match cs with
      | s :: cs2 => if s == '+' || s == '-' then jDigits cs2 else jDigits (s :: cs2)
      | [] => none
    else some (c :: cs)
  | [] => some []

/-- JSON number. -/
def jNumber (l : List Char) : Option (List Char) :=
  let afterSign := match l with
    | '-' :: cs => cs
    | _ => l
  (jIntPart afterSign).bind jFracPart |>.bind jExpPart

/-- JSON string body (the opening quote already consumed). Fuel-based. -/
def jString : Nat → List Char → Option (List Char)
  | 0, _ => none
  | fuel + 1, l =>
    match l with
    | [] => none
    | '"' :: rest => some rest
    | '\\' :: e :: rest =>
      if e == '"' || e == '\\' || e == '/' || e == 'b' || e == 'f'
          || e == 'n' || e == 'r' || e == 't' then
        jString fuel rest
      else if e == 'u' then
        match rest with
        | a :: b :: c :: d :: rest2 =>
          if isHexChar a && isHexChar b && isHexChar c && isHexChar d then
            jString fuel rest2
          else none
        | _ => none
      else none
    | c :: rest => if c.toNat < 32 then none else jString fuel rest

mutual

/-- JSON value (input already at the first significant character). -/
def jValue : Nat → List Char → Option (List Char)
  | 0, _ => none
  | fuel + 1, l =>
    if leadsWith ['t', 'r', 'u', 'e'] l then some (l.drop 4)
    else if leadsWith ['f', 'a', 'l', 's', 'e'] l then some (l.drop 5)
    else if leadsWith ['n', 'u', 'l', 'l'] l then some (l.drop 4)
    else
      match l with
      | '"' :: cs => jString fuel cs
      | '{' :: cs => jObject fuel (skipJsonWs cs)
      | '[' :: cs => jArray fuel (skipJsonWs cs)
      | _ => jNumber l

/-- JSON object body after `{` and whitespace. -/
def jObject : Nat → List Char → Option (List Char)
  | 0, _ => none
  | fuel + 1, l =>
    match l with
    | '}' :: rest => some rest
    | '"' :: cs => jMember fuel cs
    | _ => none

/-- One object member starting at its key's string body; then the tail. -/
def jMember : Nat → List Char → Option (List Char)
  | 0, _ => none
  | fuel + 1, l =>
    match jString fuel l with
    | some rest =>
      match skipJsonWs rest with
      | ':' :: rest2 =>
        match jValue fuel (skipJsonWs rest2) with
        | some rest3 => jObjectTail fuel (skipJsonWs rest3)
        | none => none
      | _ => none
    | none => none

/-- After one object member: `,` and another member, or `}`. -/
def jObjectTail : Nat → List Char → Option (List Char)
  | 0, _ => none
  | fuel + 1, l =>
    match l with
    | '}' :: rest => some rest
    | ',' :: rest =>
      match skipJsonWs rest with
      | '"' :: cs => jMember fuel cs
      | _ => none
    | _ => none

/-- JSON array body after `[` and whitespace. -/
def jArray : Nat → List Char → Option (List Char)
  | 0, _ => none
  | fuel + 1, l =>
    match l with
    | ']' :: rest => some rest
    | _ =>
      match jValue fuel l with
      | some rest => jArrayTail fuel (skipJsonWs rest)
      | none => none

/-- After one array element: `,` and another element, or `]`. -/
def jArrayTail : Nat → List Char → Option (List Char)
  | 0, _ => none
  | fuel + 1, l =>
    match l with
    | ']' :: rest => some rest
    | ',' :: rest =>
      match jValue fuel (skipJsonWs rest) with
      | some rest2 => jArrayTail fuel (skipJsonWs rest2)
      | none => none
    | _ => none

end

/-- `JSON.parse(s)` succeeds: whitespace, one value, whitespace, end. -/
def jsonParses (s : String) : Bool :=
  match jValue (4 * s.length + 8) (skipJsonWs s.data) with
  | some rest => (skipJsonWs rest).isEmpty
  | none => false

/-! ## Episode source inference (`src/services/graphiti-client.ts:237`) -/

/-- `EpisodeSource` (`"text" | "json" | "message"`). -/
inductive EpisodeSource where
  | text
  | json
  | message
deriving DecidableEq

/-- The conversational-role shape test the source applies to the trimmed
content: contains `"role":` and `"user"` or `"assistant"`. -/
def hasRoleShape (t : String) : Bool :=
  strIncludes t "\"role\":" && (strIncludes t "\"user\"" || strIncludes t "\"assistant\"")

/-- `GraphitiClient.inferSource` (`src/services/graphiti-client.ts:237`):
only content whose trimmed form starts with `\x7b` or `[` is JSON-parsed
(failure falls straight to `text`); otherwise the role-shape test decides
`message`, else `text`. -/
def GraphitiClient.inferSource (content : String) : EpisodeSource :=
  let trimmed := strTrim content
  if strStarts trimmed "\x7b" || strStarts trimmed "[" then
    if jsonParses trimmed then .json else .text
  else if hasRoleShape trimmed then .message
  else .text

/-- The inference algorithm as the claim states it: attempt a JSON parse of
the trimmed content (success → `json`), else detect a conversational-role
shape (→ `message`), else `text`. -/
def claimedInferSource (content : String) : EpisodeSource :=
  let trimmed := strTrim content
  if jsonParses trimmed then .json
  else if hasRoleShape trimmed then .message
  else .text

/-! ## Transport client result shapes (`src/types/index.ts`) -/

/-- `GraphitiNodeResult` (from `search_nodes`). -/
structure GraphitiNodeResult where
  uuid : String
  name : String
  labels : Option (List String) := none
  created_at : Option String := none
  summary : Option String := none
  group_id : String
deriving DecidableEq

/-- `GraphitiFactResult` (from `search_memory_facts` / REST `/search`,
after the REST client's field-by-field copy). -/
structure GraphitiFactResult where
  uuid : Option String := none
  name : Option String := none
  fact : Option String := none
  source_node_uuid : Option String := none
  target_node_uuid : Option String := none
  created_at : Option String := none
  valid_at : Option String := none
  invalid_at : Option String := none
  group_id : Option String := none
deriving DecidableEq

/-- One entry of the unified `results` array `searchMemories` builds on
either transport. Fields a given object literal omits are `none`. -/
structure SearchResultItem where
  id : String
  memory : String
  similarity : Option ℚ
  type : MemKind
  labels : Option (List String) := none
  createdAt : Option String := none
  validAt : Option String := none
  sourceNode : Option String := none
  targetNode : Option String := none
deriving DecidableEq

/-! ## Stateful (MCP) client (`src/services/graphiti-client.ts`)

`searchMemories` issues a node search and a fact search; the network layer
is abstracted into the two decoded result lists. `now` is `Date.now()` in
milliseconds (read inside the fact mapping for the fallback id). -/

/-- The node-to-result mapping of `GraphitiClient.searchMemories`
(`src/services/graphiti-client.ts:431`). -/
def GraphitiClient.nodeToResult (node : GraphitiNodeResult) : SearchResultItem :=
  { id := node.uuid
    memory := jsOrStr node.summary node.name
    similarity := some (0.9 : ℚ)
    type := .node
    labels := node.labels
    createdAt := node.created_at }

/-- `GraphitiClient.formatFactWithRelationship`
(`src/services/graphiti-client.ts:470`): both branches of its conditional
return the same content string. -/
def GraphitiClient.formatFactWithRelationship (fact : GraphitiFactResult) : String :=
  let content := jsOrStr fact.fact (jsOrStr fact.name "")
  if jsTruthyStr fact.source_node_uuid && jsTruthyStr fact.target_node_uuid then
    content
  else content

/-- The fact-to-result mapping of `GraphitiClient.searchMemories`
(`src/services/graphiti-client.ts:439`). -/
def GraphitiClient.factToResult (now : Int) (fact : GraphitiFactResult) : SearchResultItem :=
  { id := jsOrStr fact.uuid ("fact-" ++ toString now)
    memory := GraphitiClient.formatFactWithRelationship fact
    similarity := some (0.85 : ℚ)
    type := .fact
    createdAt := fact.created_at
    validAt := fact.valid_at
    sourceNode := fact.source_node_uuid
    targetNode := fact.target_node_uuid }

/-- `GraphitiClient.searchMemories` (`src/services/graphiti-client.ts:410`),
from the two decoded backend responses onward: drops facts with a truthy
`invalid_at` (`validFacts`), then concatenates the normalized nodes and the
normalized valid facts. -/
def GraphitiClient.searchMemories (now : Int) (nodes : List GraphitiNodeResult)
    (facts : List GraphitiFactResult) : List SearchResultItem :=
  let validFacts := facts.filter (fun fact => !(jsTruthyStr fact.invalid_at))
  nodes.map GraphitiClient.nodeToResult ++ validFacts.map (GraphitiClient.factToResult now)

/-! ### The MCP tool-call retry loop (`src/services/graphiti-client.ts:106`)

One scripted `AttemptOutcome` is what one round-trip of `callMCPTool`
observes after decoding (HTTP error status and body text; or a 2xx response
whose JSON-RPC frame carries an error; or a result). `callMCPTool` consumes
the script one attempt at a time; `none` means the script was exhausted,
i.e. the client went on to issue yet another network attempt. -/

/-- What one tool-call attempt comes back with. -/
inductive AttemptOutcome where
  | httpError (status : Nat) (body : String)
  | rpcError (message : String)
  | rpcResult (result : String)
deriving DecidableEq

/-- The tagged outcome `callMCPTool`'s caller observes (a thrown `Error`
is modelled as `error`). -/
inductive CallResult where
  | ok (result : String)
  | error (message : String)
deriving DecidableEq

/-- The retry trigger of `src/services/graphiti-client.ts:141`:
`response.status === 400 && errorText.includes("session")`. -/
def sessionRetry : AttemptOutcome → Bool
  | .httpError status body => status == 400 && strIncludes body "session"
  | _ => false

/-- `GraphitiClient.callMCPTool` (`src/services/graphiti-client.ts:106`)
over a script of attempt outcomes. On a 400 status whose body mentions
"session" it clears the session state and recursively re-issues the same
call (`return this.callMCPTool(toolName, args)`), consuming the next
scripted attempt; any other non-2xx status or JSON-RPC error is thrown.
The session re-handshake inside `ensureSession` is absorbed into the next
attempt. -/
def GraphitiClient.callMCPTool : List AttemptOutcome → Option CallResult
  | [] => none
  | a :: rest =>
    match a with
    | .httpError status body =>
      if status == 400 && strIncludes body "session" then
        GraphitiClient.callMCPTool rest
      else some (.error ("HTTP " ++ toString status ++ ": " ++ body))
    | .rpcError msg => some (.error ("MCP Error: " ++ msg))
    | .rpcResult r => some (.ok r)

/-! ## Stateless (REST) client (`src/services/graphiti-rest-client.ts`) -/

/-- The fact-to-result mapping of `GraphitiRestClient.searchMemories`
(`src/services/graphiti-rest-client.ts:532`): note `similarity: null`. -/
def GraphitiRestClient.factToResult (now : Int) (fact : GraphitiFactResult) : SearchResultItem :=
  { id := jsOrStr fact.uuid ("fact-" ++ toString now)
    memory := jsOrStr fact.fact (jsOrStr fact.name "")
    similarity := none
    type := .fact
    createdAt := fact.created_at
    validAt := fact.valid_at
    sourceNode := fact.source_node_uuid
    targetNode := fact.target_node_uuid }

/-- `GraphitiRestClient.searchMemories`
(`src/services/graphiti-rest-client.ts:500`), from the decoded fact list
onward (whether it came from `/get-memory` or `/search`): filters out facts
with a truthy `invalid_at`, then normalizes. The REST backend has no node
search, so all results are fact-derived. -/
def GraphitiRestClient.searchMemories (now : Int)
    (facts : List GraphitiFactResult) : List SearchResultItem :=
  (facts.filter (fun fact => !(jsTruthyStr fact.invalid_at))).map
    (GraphitiRestClient.factToResult now)

/-- The result record `GraphitiRestClient.searchNodes` returns. -/
structure NodeSearchResult where
  success : Bool
  nodes : List GraphitiNodeResult
  total : Nat
deriving DecidableEq

/-- `GraphitiRestClient.searchNodes` (`src/services/graphiti-rest-client.ts:669`):
the REST API has no node search; the method ignores its arguments and
returns a successful empty result. -/
def GraphitiRestClient.searchNodes (query : String) (groupIds : List String)
    (maxNodes : Option Nat) (entityTypes : Option (List String)) : NodeSearchResult :=
  { success := true, nodes := [], total := 0 }

/-- The tagged result of a REST mutation (`{success: true, message}` or
`{success: false, error}`). -/
inductive OpOutcome where
  | ok (message : String)
  | error (message : String)
deriving DecidableEq

/-- `GraphitiRestClient.deleteGroup` (`src/services/graphiti-rest-client.ts:429`):
issues `DELETE /group/{id}`; a thrown transport error is caught and returned
as a failure outcome. `backend` gives each group id's decoded response. -/
def GraphitiRestClient.deleteGroup (backend : String → OpOutcome)
    (groupId : String) : OpOutcome :=
  match backend groupId with
  | .ok m => .ok m
  | .error e => .error e

/-- `GraphitiRestClient.clearGraph` (`src/services/graphiti-rest-client.ts:448`):
with a non-empty group list it calls `deleteGroup` per group, ignores every
per-group outcome, and returns success with `Cleared N groups`; otherwise it
posts `/clear` and reports that endpoint's outcome. -/
def GraphitiRestClient.clearGraph (backend : String → OpOutcome)
    (clearEndpoint : OpOutcome) (groupIds : Option (List String)) : OpOutcome :=
  match groupIds with
  | some gids =>
    if gids.length > 0 then
      let _ := gids.map (fun g => GraphitiRestClient.deleteGroup backend g)
      .ok ("Cleared " ++ toString gids.length ++ " groups")
    else
      match clearEndpoint with
      | .ok m => .ok m
      | .error e => .error e
  | none =>
    match clearEndpoint with
    | .ok m => .ok m
    | .error e => .error e

/-- The `Message` record `GraphitiRestClient.addMemory` posts to
`/messages` (`src/services/graphiti-rest-client.ts:30`). -/
structure Message where
  content : String
  role_type : String
  role : Option String
  timestamp : String
  uuid : Option String := none
  name : Option String := none
  source_description : Option String := none
deriving DecidableEq

/-- The message `GraphitiRestClient.addMemory`
(`src/services/graphiti-rest-client.ts:136`) builds from the content and
metadata: always `role_type: "user"`, the content passed through verbatim,
no episode-source field at all (`metadata.source` is never read; the method
performs no source inference). `nowIso` is `new Date().toISOString()`. -/
def GraphitiRestClient.addMemoryMessage (nowIso : String) (content : String)
    (mType mName mUuid : Option String) : Message :=
  { content := content
    role_type := "user"
    role := some (jsOrStr mType "memory")
    timestamp := nowIso
    uuid := if jsTruthyStr mUuid then mUuid else none
    name := mName
    source_description := some (jsOrStr mType "opencode-memory") }

/-! ## Combined-scope search (`src/index.ts:343`)

The `graphiti` tool's search mode without a `scope` argument: both scopes'
`searchMemories` results are tagged, merged, sorted by similarity
descending and sliced to the limit. -/

/-- A search result with its originating scope attached (the TS spread
`{...r, scope}`). -/
structure ScopedSearchResult where
  item : SearchResultItem
  scope : String
deriving DecidableEq

/-- The numeric value JS arithmetic gives a `number | null` similarity:
`null` coerces to `0` (both in the sort comparator `b.similarity -
a.similarity` and in `Math.round(r.similarity * 100)`). -/
def simValue (sim : Option ℚ) : ℚ := sim.getD 0

/-- The sort key of the combined-search comparator. -/
def searchKey (r : ScopedSearchResult) : ℚ := simValue r.item.similarity

/-- Insert into a descending-sorted list, after every element with a
strictly larger key and before the first with an equal or smaller key; the
stable-insertion step of the sort. -/
def insertDesc (x : ScopedSearchResult) : List ScopedSearchResult → List ScopedSearchResult
  | [] => [x]
  | y :: ys => if searchKey x < searchKey y then y :: insertDesc x ys else x :: y :: ys

/-- The combined results sorted by `(a, b) => b.similarity - a.similarity`.
For this consistent comparator ECMAScript mandates a stable sort, whose
output any stable sorting algorithm (here insertion sort) reproduces. -/
def sortBySimilarityDesc : List ScopedSearchResult → List ScopedSearchResult
  | [] => []
  | x :: xs => insertDesc x (sortBySimilarityDesc xs)

/-- JS `l.slice(0, e)`: a negative end counts back from the length. -/
def jsSliceTo (l : List α) (e : Int) : List α :=
  if e < 0 then l.take (l.length - e.natAbs) else l.take e.toNat

/-- `{...r, scope}`. -/
def tagScope (scope : String) (r : SearchResultItem) : ScopedSearchResult :=
  ⟨r, scope⟩

/-- `args.limit || 10` (`src/index.ts:370`): an absent limit — and, by JS
falsiness, a zero limit — becomes 10. -/
def effectiveLimit (limit : Option Int) : Int :=
  match limit with
  | some l => if l == 0 then 10 else l
  | none => 10

/-- The scope-less search branch of the `graphiti` tool (`src/index.ts:343`):
tag the user-scope and project-scope results, merge, sort by similarity
descending, slice to `args.limit || 10`. -/
def combinedSearch (userResults projectResults : List SearchResultItem)
    (limit : Option Int) : List ScopedSearchResult :=
  let combined := userResults.map (tagScope "user")
    ++ projectResults.map (tagScope "project")
  jsSliceTo (sortBySimilarityDesc combined) (effectiveLimit limit)

/-! ## The composer line format as the claim states it

For the refinement comparison, the per-memory line is re-stated from the
specification's words: the four tags concatenated in the fixed order
type, label, temporal, similarity, then the memory text; the temporal tag
bucketed by whole days since `validAt`. -/

/-- The temporal-recency tag as the claim words it. -/
def claimedTemporalTag (now : Int) (mem : MemoryResult) : String :=
  match mem.validAt with
  | none => ""
  | some v =>
    let days := (now - v).fdiv msPerDay
    if days ≤ 1 then "[recent]"
    else if days ≤ 7 then "[this week]"
    else if days ≤ 30 then "[this month]"
    else "[" ++ toString days ++ "d ago]"

/-- The per-memory line as the claim words it: `- ` then the type tag (if a
type is present), the label tag (if any labels), the temporal tag, the
similarity percentage tag (if a similarity is present), then the text. -/
def claimedMemoryLine (now : Int) (mem : MemoryResult) : String :=
  let typeTag := match mem.type with
    | some t => "[" ++ t.render ++ "]"
    | none => ""
  let labelTag := match mem.labels with
    | some ls => if ls.length > 0 then "[" ++ String.intercalate "," ls ++ "]" else ""
    | none => ""
  let temporalTag := claimedTemporalTag now mem
  let similarityTag := match mem.similarity with
    | some s => "[" ++ toString (round (s * 100)) ++ "%]"
    | none => ""
  "- " ++ (typeTag ++ labelTag ++ temporalTag ++ similarityTag) ++ " " ++ mem.memory.getD ""

/-! ## Concrete inputs for the counterexamples and witnesses -/

/-- A fact whose `invalid_at` is present but the empty string: non-null,
yet falsy to the filter. -/
def invalidEmptyFact : GraphitiFactResult :=
  { uuid := some "fact-1", fact := some "Alice prefers tea", invalid_at := some "" }

/-- A currently-valid fact (`invalid_at` absent). -/
def validRestFact : GraphitiFactResult :=
  { uuid := some "fact-2", fact := some "Bob uses vim" }

/-- A currently-valid fact for the MCP-side witness. -/
def validMcpFact : GraphitiFactResult :=
  { uuid := some "fact-3", fact := some "Carol ships on Fridays" }

/-- The spec's worked example: type `fact`, label `Preference`,
`validAt` two days before the clock, similarity 0.87. -/
def exampleMemory : MemoryResult :=
  { id := "m1", memory := some "I prefer tabs", similarity := some (0.87 : ℚ),
    type := some MemKind.fact, labels := some ["Preference"], validAt := some 0 }

/-- A minimal memory whose only clock-sensitive part is its temporal tag. -/
def clockMemory : MemoryResult :=
  { id := "m2", memory := some "uses bun", validAt := some 0 }

/-- A configuration with every injection toggle enabled. -/
def cfgAll : Config :=
  { injectProfile := true, injectProjectMemories := true,
    injectRelevantMemories := true, maxProfileItems := 5 }

/-- User-scope search result with similarity 0.5. -/
def userItemLow : SearchResultItem :=
  { id := "u-low", memory := "half", similarity := some (0.5 : ℚ), type := MemKind.fact }

/-- User-scope search result with similarity 0.9. -/
def userItemHigh : SearchResultItem :=
  { id := "u-high", memory := "nine", similarity := some (0.9 : ℚ), type := MemKind.node }

/-- Project-scope search result with similarity 0.7. -/
def projectItemMid : SearchResultItem :=
  { id := "p-mid", memory := "seven", similarity := some (0.7 : ℚ), type := MemKind.fact }

/-- The profile contributes nothing: absent at either level, or both fact
arrays empty. -/
def profileEmpty : Option ProfileResponse → Prop
  | none => True
  | some resp =>
    match resp.profile with
    | none => True
    | some up => up.static = [] ∧ up.dynamic = []

/-- Appending after the empty string is the identity. -/
theorem strEmptyAppend (s : String) : "" ++ s = s := by
  cases s
  rfl

/-- C9: on the stateless (REST) transport, `searchNodes` ignores its query
and group ids and always returns a success whose node list is empty and
whose total is 0 — never an error result. -/
theorem C9_searchNodes_empty (query : String) (groupIds : List String)
    (maxNodes : Option Nat) (entityTypes : Option (List String)) :
    GraphitiRestClient.searchNodes query groupIds maxNodes entityTypes
      = { success := true, nodes := [], total := 0 } := rfl

/-- C10: when the REST `clearGraph` is called with a non-empty group list it
returns success with message `Cleared N groups` whatever the per-group
`deleteGroup` outcomes were; per-group failures are not propagated. -/
theorem C10_clearGraph_ignores_failures (backend : String → OpOutcome)
    (clearEndpoint : OpOutcome) (gids : List String) (h : gids ≠ []) :
    GraphitiRestClient.clearGraph backend clearEndpoint (some gids)
      = OpOutcome.ok ("Cleared " ++ toString gids.length ++ " groups") := by
  cases gids with
  | nil => exact absurd rfl h
  | cons g gs => simp [GraphitiRestClient.clearGraph]

/-- C10 witness: two groups whose deletions both fail with a transport
error still yield `Cleared 2 groups`. -/
theorem C10_witness :
    GraphitiRestClient.clearGraph (fun _ => OpOutcome.error "HTTP 500: boom")
      (OpOutcome.ok "cleared") (some ["a", "b"]) = OpOutcome.ok "Cleared 2 groups" :=
  (C10_clearGraph_ignores_failures (fun _ => OpOutcome.error "HTTP 500: boom")
    (OpOutcome.ok "cleared") ["a", "b"] (by decide)).trans (by decide)

/-- C2: evaluating the MCP tool-call retry loop at the failing input. Two
consecutive HTTP 400 responses whose body mentions the session do not make
the failure propagate — the script is still being consumed (`none`), and
with a third scripted attempt the call goes on to issue it and returns its
result, contradicting the claimed two-attempt bound. -/
theorem C2_unbounded_retry_eval :
    GraphitiClient.callMCPTool
      [AttemptOutcome.httpError 400 "Bad Request: No valid session ID provided",
       AttemptOutcome.httpError 400 "Bad Request: No valid session ID provided"] = none
    ∧ GraphitiClient.callMCPTool
      [AttemptOutcome.httpError 400 "Bad Request: No valid session ID provided",
       AttemptOutcome.httpError 400 "Bad Request: No valid session ID provided",
       AttemptOutcome.rpcResult "ok"] = some (CallResult.ok "ok") := by
  exact ⟨by decide, by decide⟩

/-- C4 counterexample: `"42"` is valid JSON, so the claimed algorithm
(attempt JSON parse of the trimmed content first) infers `json`, but the
code only attempts a JSON parse when the trimmed content starts with a
brace or bracket, and infers `text`. -/
theorem C4_counterexample :
    jsonParses "42" = true
    ∧ GraphitiClient.inferSource "42" = EpisodeSource.text
    ∧ claimedInferSource "42" = EpisodeSource.json := by
  exact ⟨by decide, by decide, by decide⟩

/-- C4 (corrected): only content whose trimmed form starts with a brace or
bracket is JSON-parse-attempted (success → json, failure → text, with no
fallthrough to the role-shape test); otherwise the conversational-role
shape decides message, else text. The REST transport's `addMemory` performs
no source inference at all: it always posts the verbatim content as a
message with `role_type` "user". -/
theorem C4_inference :
    (∀ content : String,
      ((strStarts (strTrim content) "\x7b" || strStarts (strTrim content) "[") = true →
        GraphitiClient.inferSource content =
          (if jsonParses (strTrim content) then EpisodeSource.json else EpisodeSource.text))
      ∧ ((strStarts (strTrim content) "\x7b" || strStarts (strTrim content) "[") = false →
        GraphitiClient.inferSource content =
          (if hasRoleShape (strTrim content) then EpisodeSource.message else EpisodeSource.text)))
    ∧ (∀ (nowIso content : String) (mType mName mUuid : Option String),
        (GraphitiRestClient.addMemoryMessage nowIso content mType mName mUuid).role_type = "user"
        ∧ (GraphitiRestClient.addMemoryMessage nowIso content mType mName mUuid).content
            = content) := by
  constructor
  · intro content
    constructor <;> intro h <;> simp [GraphitiClient.inferSource, h]
  · intro nowIso content mType mName mUuid
    exact ⟨rfl, rfl⟩

/-- C1 counterexample: a fact whose `invalid_at` is the empty string — a
non-null value — survives the `!fact.invalid_at` filter and is normalized
into the output on both transports. -/
theorem C1_counterexample :
    invalidEmptyFact.invalid_at.isSome = true
    ∧ GraphitiClient.searchMemories 0 [] [invalidEmptyFact]
        = [GraphitiClient.factToResult 0 invalidEmptyFact]
    ∧ GraphitiRestClient.searchMemories 0 [invalidEmptyFact]
        = [GraphitiRestClient.factToResult 0 invalidEmptyFact] := by
  exact ⟨rfl, rfl, rfl⟩

/-- C5 counterexample: on the REST transport a currently-valid fact's
normalized result carries a `null` similarity, not 0.85. -/
theorem C5_counterexample :
    validRestFact.invalid_at = none
    ∧ GraphitiRestClient.searchMemories 0 [validRestFact]
        = [GraphitiRestClient.factToResult 0 validRestFact]
    ∧ (GraphitiRestClient.factToResult 0 validRestFact).similarity = none
    ∧ (GraphitiRestClient.factToResult 0 validRestFact).similarity ≠ some (0.85 : ℚ) := by
  refine ⟨rfl, rfl, rfl, ?_⟩
  simp [GraphitiRestClient.factToResult]

/-- C6 counterexample: with a requested limit of 0 the scope-less search
does not truncate to 0 results — JS `args.limit || 10` treats 0 as absent,
so one result comes back. -/
theorem C6_counterexample :
    combinedSearch [userItemLow] [] (some 0) = [tagScope "user" userItemLow]
    ∧ (combinedSearch [userItemLow] [] (some 0)).length = 1 := by
  exact ⟨rfl, rfl⟩

/-- C3 counterexample: the composer reads the wall clock, so the same
profile and memory inputs evaluated at two different times produce
different strings (the temporal tag moves buckets). -/
theorem C3_counterexample :
    formatContextForPrompt cfgAll 0 none ⟨some [clockMemory]⟩ ⟨none⟩
      ≠ formatContextForPrompt cfgAll (40 * msPerDay) none ⟨some [clockMemory]⟩ ⟨none⟩ := by
  decide

/-- C1 (corrected): the temporal-validity gate on both transports, stated
for truthy `invalid_at`: every fact-derived result of `searchMemories`
originates from a fact whose `invalid_at` is falsy (absent, null, or the
empty string); facts with a truthy (non-null, non-empty) `invalid_at` never
contribute a result. On the REST transport every result is fact-derived. -/
theorem C1_temporal_gate :
    (∀ (now : Int) (nodes : List GraphitiNodeResult) (facts : List GraphitiFactResult)
        (item : SearchResultItem),
      item ∈ GraphitiClient.searchMemories now nodes facts →
      item.type = MemKind.fact →
      ∃ f, f ∈ facts ∧ jsTruthyStr f.invalid_at = false
        ∧ item = GraphitiClient.factToResult now f)
    ∧ (∀ (now : Int) (facts : List GraphitiFactResult) (item : SearchResultItem),
      item ∈ GraphitiRestClient.searchMemories now facts →
      ∃ f, f ∈ facts ∧ jsTruthyStr f.invalid_at = false
        ∧ item = GraphitiRestClient.factToResult now f) := by
  constructor
  · intro now nodes facts item hmem htype
    simp only [GraphitiClient.searchMemories, List.mem_append, List.mem_map,
      List.mem_filter] at hmem
    rcases hmem with ⟨node, _, heq⟩ | ⟨f, ⟨hf, hvalid⟩, heq⟩
    · rw [← heq] at htype
      simp [GraphitiClient.nodeToResult] at htype
    · exact ⟨f, hf, by simpa using hvalid, heq.symm⟩
  · intro now facts item hmem
    simp only [GraphitiRestClient.searchMemories, List.mem_map, List.mem_filter] at hmem
    rcases hmem with ⟨f, ⟨hf, hvalid⟩, heq⟩
    exact ⟨f, hf, by simpa using hvalid, heq.symm⟩

/-- C5 (corrected): on the stateful transport every node-derived result
carries similarity 0.9 and every fact-derived result 0.85; on the REST
transport every result is fact-derived and carries a null similarity. -/
theorem C5_similarity_constants :
    (∀ (now : Int) (nodes : List GraphitiNodeResult) (facts : List GraphitiFactResult)
        (item : SearchResultItem),
      item ∈ GraphitiClient.searchMemories now nodes facts →
      (item.type = MemKind.node → item.similarity = some (0.9 : ℚ))
      ∧ (item.type = MemKind.fact → item.similarity = some (0.85 : ℚ)))
    ∧ (∀ (now : Int) (facts : List GraphitiFactResult) (item : SearchResultItem),
      item ∈ GraphitiRestClient.searchMemories now facts →
      item.type = MemKind.fact ∧ item.similarity = none) := by
  constructor
  · intro now nodes facts item hmem
    simp only [GraphitiClient.searchMemories, List.mem_append, List.mem_map,
      List.mem_filter] at hmem
    rcases hmem with ⟨node, _, heq⟩ | ⟨f, _, heq⟩
    · rw [← heq]
      exact ⟨fun _ => rfl, by simp [GraphitiClient.nodeToResult]⟩
    · rw [← heq]
      exact ⟨by simp [GraphitiClient.factToResult], fun _ => rfl⟩
  · intro now facts item hmem
    simp only [GraphitiRestClient.searchMemories, List.mem_map, List.mem_filter] at hmem
    rcases hmem with ⟨f, _, heq⟩
    rw [← heq]
    exact ⟨rfl, rfl⟩

/-- Stable descending insertion is a permutation of consing. -/
theorem insertDesc_perm (x : ScopedSearchResult) (l : List ScopedSearchResult) :
    List.Perm (insertDesc x l) (x :: l) := by
  induction l with
  | nil => exact List.Perm.refl _
  | cons y ys ih =>
    by_cases h : searchKey x < searchKey y
    · simp only [insertDesc, if_pos h]
      exact (ih.cons y).trans (List.Perm.swap x y ys)
    · simp only [insertDesc, if_neg h]
      exact List.Perm.refl _

/-- Stable descending insertion preserves descending sortedness. -/
theorem insertDesc_pairwise (x : ScopedSearchResult) (l : List ScopedSearchResult)
    (h : l.Pairwise (fun a b => searchKey b ≤ searchKey a)) :
    (insertDesc x l).Pairwise (fun a b => searchKey b ≤ searchKey a) := by
  induction l with
  | nil => simp [insertDesc]
  | cons y ys ih =>
    rcases List.pairwise_cons.mp h with ⟨hy, hys⟩
    by_cases hlt : searchKey x < searchKey y
    · simp only [insertDesc, if_pos hlt]
      refine List.pairwise_cons.mpr ⟨?_, ih hys⟩
      intro z hz
      have hz' : z ∈ x :: ys := (insertDesc_perm x ys).mem_iff.mp hz
      rcases List.mem_cons.mp hz' with rfl | hz''
      · exact le_of_lt hlt
      · exact hy z hz''
    · simp only [insertDesc, if_neg hlt]
      refine List.pairwise_cons.mpr ⟨?_, h⟩
      intro z hz
      rcases List.mem_cons.mp hz with rfl | hz'
      · exact le_of_not_lt hlt
      · exact le_trans (hy z hz') (le_of_not_lt hlt)

/-- The combined-search sort is a permutation of its input. -/
theorem sortBySimilarityDesc_perm (l : List ScopedSearchResult) :
    List.Perm (sortBySimilarityDesc l) l := by
  induction l with
  | nil => exact List.Perm.refl _
  | cons x xs ih =>
    exact (insertDesc_perm x (sortBySimilarityDesc xs)).trans (ih.cons x)

/-- The combined-search sort yields similarity-descending order. -/
theorem sortBySimilarityDesc_pairwise (l : List ScopedSearchResult) :
    (sortBySimilarityDesc l).Pairwise (fun a b => searchKey b ≤ searchKey a) := by
  induction l with
  | nil => simp [sortBySimilarityDesc]
  | cons x xs ih => exact insertDesc_pairwise x _ ih

/-- C6 (corrected): the scope-less search merges the user- and
project-scope results tagged with their originating scope, sorts the merge
by similarity descending, and truncates to the caller's limit — where, by
JS falsiness, an absent and a zero limit both become 10. -/
theorem C6_combined_search (u p : List SearchResultItem) (lim : Option Int) :
    (combinedSearch u p lim).Pairwise (fun a b => searchKey b ≤ searchKey a)
    ∧ (∀ x ∈ combinedSearch u p lim,
        (∃ r ∈ u, x = tagScope "user" r) ∨ (∃ r ∈ p, x = tagScope "project" r))
    ∧ ((lim = none ∨ lim = some 0) →
        (combinedSearch u p lim).length = min 10 (u.length + p.length))
    ∧ (∀ l : Int, lim = some l → 0 < l →
        (combinedSearch u p lim).length = min l.toNat (u.length + p.length)) := by
  set combined := u.map (tagScope "user") ++ p.map (tagScope "project") with hcombined
  have hsortlen : (sortBySimilarityDesc combined).length = u.length + p.length := by
    rw [(sortBySimilarityDesc_perm combined).length_eq]
    simp [hcombined]
  have heff : ∀ e : Int, 0 ≤ e →
      jsSliceTo (sortBySimilarityDesc combined) e
        = (sortBySimilarityDesc combined).take e.toNat := by
    intro e he
    simp [jsSliceTo, not_lt.mpr he]
  refine ⟨?_, ?_, ?_, ?_⟩
  · have hp := sortBySimilarityDesc_pairwise combined
    unfold combinedSearch
    rw [← hcombined]
    unfold jsSliceTo
    split
    · exact hp.sublist (List.take_sublist _ _)
    · exact hp.sublist (List.take_sublist _ _)
  · intro x hx
    have hx' : x ∈ sortBySimilarityDesc combined := by
      unfold combinedSearch at hx
      rw [← hcombined] at hx
      unfold jsSliceTo at hx
      split at hx
      · exact List.take_subset _ _ hx
      · exact List.take_subset _ _ hx
    have hxc : x ∈ combined := (sortBySimilarityDesc_perm combined).mem_iff.mp hx'
    rw [hcombined] at hxc
    rcases List.mem_append.mp hxc with hxa | hxb
    · rcases List.mem_map.mp hxa with ⟨r, hr, heq⟩
      exact Or.inl ⟨r, hr, heq.symm⟩
    · rcases List.mem_map.mp hxb with ⟨r, hr, heq⟩
      exact Or.inr ⟨r, hr, heq.symm⟩
  · intro hlim
    have he : effectiveLimit lim = 10 := by
      rcases hlim with rfl | rfl <;> rfl
    unfold combinedSearch
    rw [← hcombined, he, heff 10 (by norm_num), List.length_take, hsortlen]
    rfl
  · intro l hl hpos
    have hne : (l == 0) = false := by
      simp
      omega
    have he : effectiveLimit lim = l := by
      subst hl
      simp [effectiveLimit, hne]
    unfold combinedSearch
    rw [← hcombined, he, heff l (le_of_lt hpos), List.length_take, hsortlen]

/-- C6 witness: user similarities 0.5 and 0.9 merged with project 0.7 come
back ordered 0.9, 0.7, 0.5 with scope tags user, project, user, of length
`min 10 3`. -/
theorem C6_witness :
    (combinedSearch [userItemLow, userItemHigh] [projectItemMid] none).map
        (fun r => (searchKey r, r.scope))
      = [((0.9 : ℚ), "user"), ((0.7 : ℚ), "project"), ((0.5 : ℚ), "user")]
    ∧ (combinedSearch [userItemLow, userItemHigh] [projectItemMid] none).length
      = min 10 (2 + 1) := by
  constructor
  · norm_num [combinedSearch, sortBySimilarityDesc, insertDesc, jsSliceTo, effectiveLimit,
      tagScope, searchKey, simValue, userItemLow, userItemHigh, projectItemMid]
  · exact (C6_combined_search [userItemLow, userItemHigh] [projectItemMid] none).2.2.1
      (Or.inl rfl)

/-- C3 (corrected): the composer is deterministic given its inputs, the
configuration and the evaluation-time clock; the clock enters only through
the temporal-recency tags, so two evaluations whose clocks give every
memory the same temporal tag produce the same string. -/
theorem C3_determinism_given_clock (cfg : Config) (t1 t2 : Int)
    (profile : Option ProfileResponse)
    (userMemories projectMemories : MemoriesResponseMinimal)
    (hu : ∀ mem ∈ userMemories.results.getD [],
      formatTemporalTag t1 mem = formatTemporalTag t2 mem)
    (hp : ∀ mem ∈ projectMemories.results.getD [],
      formatTemporalTag t1 mem = formatTemporalTag t2 mem) :
    formatContextForPrompt cfg t1 profile userMemories projectMemories
      = formatContextForPrompt cfg t2 profile userMemories projectMemories := by
  have hu' : (userMemories.results.getD []).map (formatMemoryLine t1)
      = (userMemories.results.getD []).map (formatMemoryLine t2) :=
    List.map_congr_left (fun mem hm => by simp only [formatMemoryLine, hu mem hm])
  have hp' : (projectMemories.results.getD []).map (formatMemoryLine t1)
      = (projectMemories.results.getD []).map (formatMemoryLine t2) :=
    List.map_congr_left (fun mem hm => by simp only [formatMemoryLine, hp mem hm])
  simp only [formatContextForPrompt]
  rw [hu', hp']

/-- C3 witness: one hour apart, the same inputs compose to the same string.
-/
theorem C3_witness :
    formatContextForPrompt cfgAll 0 none ⟨some [clockMemory]⟩ ⟨none⟩
      = formatContextForPrompt cfgAll 3600000 none ⟨some [clockMemory]⟩ ⟨none⟩ :=
  C3_determinism_given_clock cfgAll 0 3600000 none ⟨some [clockMemory]⟩ ⟨none⟩
    (by decide) (by decide)

/-- The code's temporal tag agrees with the claim's bucket description. -/
theorem temporalTag_eq (now : Int) (mem : MemoryResult) :
    formatTemporalTag now mem = claimedTemporalTag now mem := by
  cases h : mem.validAt <;> simp [formatTemporalTag, claimedTemporalTag, h]

/-- Dropping the empty strings before a left append-fold changes nothing. -/
theorem foldlAppendFilterAux (l : List String) (a : String) :
    (l.filter (fun t => !(t == ""))).foldl (fun x b => x ++ b) a
      = l.foldl (fun x b => x ++ b) a := by
  induction l generalizing a with
  | nil => rfl
  | cons h t ih =>
    by_cases hh : h = ""
    · subst hh
      have hc : ((fun t => !(t == "")) "") = false := by decide
      rw [List.filter_cons_of_neg (by simp), ih]
      simp [List.foldl]
    · have hc : ((fun t => !(t == "")) h) = true := by simp [hh]
      rw [List.filter_cons_of_pos (by simpa using hc)]
      simp only [List.foldl]
      exact ih (a ++ h)

/-- C7: the per-memory line is exactly the claim's fixed-order tag
concatenation (type, label, temporal, similarity, then the text), with the
claim's temporal buckets; instantiated at the spec's worked example (type
fact, label Preference, validAt two days before the clock, similarity
0.87). -/
theorem C7_line_format :
    (∀ (now : Int) (mem : MemoryResult),
      formatMemoryLine now mem = claimedMemoryLine now mem)
    ∧ formatMemoryLine (2 * msPerDay) exampleMemory
      = "- [fact][Preference][this week][87%] I prefer tabs" := by
  constructor
  · intro now mem
    simp only [formatMemoryLine, claimedMemoryLine, temporalTag_eq]
    rw [foldlAppendFilterAux]
    simp only [List.foldl]
    rw [strEmptyAppend]
  · have h87 : round ((0.87 : ℚ) * 100) = 87 := by norm_num [round_eq]
    simp only [formatMemoryLine, formatTemporalTag, exampleMemory, h87]
    norm_num
    rfl

/-- C8: when the profile contributes nothing and each memory list is empty
or its injection toggle is off, the composer returns the empty string, not
a header-only string. -/
theorem C8_empty_context (cfg : Config) (now : Int) (profile : Option ProfileResponse)
    (userMemories projectMemories : MemoriesResponseMinimal)
    (hprof : profileEmpty profile)
    (huser : userMemories.results.getD [] = [] ∨ cfg.injectRelevantMemories = false)
    (hproj : projectMemories.results.getD [] = [] ∨ cfg.injectProjectMemories = false) :
    formatContextForPrompt cfg now profile userMemories projectMemories = "" := by
  rcases huser with h1 | h1 <;> rcases hproj with h2 | h2 <;>
    rcases profile with _ | resp
  case _ => simp [formatContextForPrompt, h1, h2]
  all_goals try (rcases hresp : resp.profile with _ | up)
  all_goals simp_all [formatContextForPrompt, profileEmpty]

/-- C8 witness: empty profile arrays and empty memory lists, all toggles
on, give the empty string. -/
theorem C8_witness :
    formatContextForPrompt cfgAll 0 (some { profile := some { static := [], dynamic := [] } })
      { results := some [] } { results := some [] } = "" :=
  C8_empty_context cfgAll 0 (some { profile := some { static := [], dynamic := [] } })
    { results := some [] } { results := some [] } ⟨rfl, rfl⟩ (Or.inl rfl) (Or.inl rfl)
